import Mathlib

/-!
Shallow embedding of the XAU/USD trading bot's decision core
(signal generator, risk manager, walk-forward backtest helpers),
translated from the JavaScript sources:

  * `src/strategy/signals.js`   — `SignalGenerator.evaluate`, `_score`, `_calculateLevels`
  * `src/indicators/technical.js` — `rsiDivergence`, `_addSwingPoints`
  * `src/risk/manager.js`       — `RiskManager` (gates, sizing, trailing stop)
  * `src/backtest/engine.js`    — `checkExit`, `calcPnl`, `resampleToM15`, slicing

Numbers are rationals (`ℚ`), JavaScript's `Math.floor` is `Int.floor`,
`Math.round(x)` is `⌊x + 1/2⌋`, and a JS `null`-able indicator field is an
`Option ℚ`.  Ambient time sources of the JS code (`new Date()`, `Date.now()`,
`_todayUtc()`) are passed as explicit parameters (`todayUtc`, `wallNowMs`),
so that the stateful methods become pure state transformers.
-/

/-- Trade direction: the JS strings `'buy'` and `'sell'`. -/
inductive Dir where
  | buy
  | sell
deriving DecidableEq, Repr

/-- Result of `rsiDivergence`: the JS strings `'bullish'`, `'bearish'`, `'none'`. -/
inductive DivKind where
  | bullish
  | bearish
  | noDiv
deriving DecidableEq, Repr

/-- One enriched price bar (`{ time, open, high, low, close, volume, ... }`).
`time` is epoch milliseconds.  The numeric indicator fields (EMA-derived
`trendDir`, `rsi`, `macd*`, `stoch*`, `atr`, `bb*`) are computed by the
out-of-scope indicator collaborator and consumed here as per-bar inputs;
`none` is JS `null` (indicator not warmed up).  The structural swing fields
(`swingHigh`, `swingLow`, `lastSH`, `lastSL`) are owned by the core and set
by `addSwingPoints` below. -/
structure Candle where
  time : ℚ
  open_ : ℚ
  high : ℚ
  low : ℚ
  close : ℚ
  volume : ℚ
  atr : Option ℚ := none
  rsi : Option ℚ := none
  macdLine : Option ℚ := none
  macdSignal : Option ℚ := none
  macdHist : Option ℚ := none
  stochK : Option ℚ := none
  stochD : Option ℚ := none
  bbUpper : Option ℚ := none
  bbLower : Option ℚ := none
  trendDir : ℤ := 0
  swingHigh : Option ℚ := none
  swingLow : Option ℚ := none
  lastSH : Option ℚ := none
  lastSL : Option ℚ := none
deriving DecidableEq, Repr

/-- A zero bar, used only as the default for total `at(-1)` style access. -/
def defaultCandle : Candle :=
  { time := 0, open_ := 0, high := 0, low := 0, close := 0, volume := 0 }

instance : Inhabited Candle := ⟨defaultCandle⟩

/-- JS `arr.at(-1)` on a candle array (total, with a default for the empty
array; every call site guards the length). -/
def lastD (l : List Candle) : Candle := l.getLastD defaultCandle

/-- The `Signal` object returned by `SignalGenerator.evaluate`. -/
structure Signal where
  direction : Dir
  entryPrice : ℚ
  stopLoss : ℚ
  takeProfit : ℚ
  rrRatio : ℚ
  score : ℕ
  requiredScore : ℕ
  atr : ℚ
  isCounterTrend : Bool
  reasons : List String
  timestamp : ℚ
deriving DecidableEq, Repr

/-! Configuration constants from `config.js` (the shipped values). -/

/-- `CFG.strategy.minAtr`. -/
def minAtr : ℚ := 0.20
/-- `CFG.strategy.maxAtr`. -/
def maxAtr : ℚ := 20.0
/-- `CFG.strategy.minSignalScore`. -/
def minSignalScore : ℕ := 3
/-- `CFG.strategy.minRrRatio`. -/
def minRrRatio : ℚ := 1.8
/-- `CFG.strategy.slAtrMult`. -/
def slAtrMult : ℚ := 1.5
/-- `CFG.strategy.tpSlMult`. -/
def tpSlMult : ℚ := 2.0
/-- `CFG.indicator.rsiOverbought`. -/
def rsiOverbought : ℚ := 65.0
/-- `CFG.indicator.rsiOversold`. -/
def rsiOversold : ℚ := 35.0
/-- `CFG.indicator.stochOb`. -/
def stochOb : ℚ := 80.0
/-- `CFG.indicator.stochOs`. -/
def stochOs : ℚ := 20.0
/-- `CFG.indicator.swingWindow`. -/
def swingWindow : ℕ := 5
/-- `CFG.risk.maxRiskPct`. -/
def maxRiskPct : ℚ := 1.0
/-- `CFG.risk.maxRiskUsd`. -/
def maxRiskUsd : ℚ := 200.0
/-- `CFG.risk.maxOpenTrades`. -/
def maxOpenTrades : ℕ := 2
/-- `CFG.risk.maxDailyDrawdownPct`. -/
def maxDailyDrawdownPct : ℚ := 3.0
/-- `CFG.risk.maxDailyLossUsd`. -/
def maxDailyLossUsd : ℚ := 500.0
/-- `CFG.risk.trailingSlActivationMult`. -/
def trailingSlActivationMult : ℚ := 1.0
/-- `CFG.risk.trailingSlDistanceMult`. -/
def trailingSlDistanceMult : ℚ := 0.8

/-- JS `const round2 = v => Math.round(v * 100) / 100` where
`Math.round(x) = ⌊x + 0.5⌋`. -/
def round2 (v : ℚ) : ℚ := (⌊v * 100 + 1 / 2⌋ : ℚ) / 100

/-! The `RiskManager` from `src/risk/manager.js`.  Its mutable instance state
becomes an explicit record; each method maps a state (plus the ambient-time
parameters) to an updated state and/or a result. -/

/-- The mutable session state of a `RiskManager` instance. -/
structure RiskManager where
  equity : ℚ
  _peakEquity : ℚ
  _dailyPnl : ℚ
  _dayStartEq : ℚ
  _tradeCount : ℕ
  _lastTradeTime : Option ℚ
  _sessionDate : ℕ
deriving DecidableEq, Repr

/-- The `{ allowed, reason }` object returned by `canTrade`.  The reason
strings drop the JS template-interpolated numbers. -/
structure Decision where
  allowed : Bool
  reason : String
deriving DecidableEq, Repr

/-- `new RiskManager(initialEquity)`; `todayUtc` is `_todayUtc()` (the current
UTC calendar day, modelled as a day number). -/
def mkRiskManager (initialEquity : ℚ) (todayUtc : ℕ) : RiskManager :=
  { equity := initialEquity
    _peakEquity := initialEquity
    _dailyPnl := 0
    _dayStartEq := initialEquity
    _tradeCount := 0
    _lastTradeTime := none
    _sessionDate := todayUtc }

/-- `updateEquity(newEquity)`. -/
def RiskManager.updateEquity (st : RiskManager) (newEquity : ℚ) : RiskManager :=
  { st with equity := newEquity, _peakEquity := max st._peakEquity newEquity }

/-- `recordTradeClosed(pnl)`. -/
def RiskManager.recordTradeClosed (st : RiskManager) (pnl : ℚ) : RiskManager :=
  { st with _dailyPnl := st._dailyPnl + pnl, _tradeCount := st._tradeCount + 1 }

/-- `recordTradeOpened()`.  The JS method takes no argument and stores
`new Date()`: the wall clock at the moment of the call, which is the explicit
`wallNowMs` parameter here.  (The backtest engine passes the simulated bar
time as an argument, but the method ignores it.) -/
def RiskManager.recordTradeOpened (st : RiskManager) (wallNowMs : ℚ) : RiskManager :=
  { st with _lastTradeTime := some wallNowMs }

/-- `_resetIfNewDay()`; `todayUtc` is `_todayUtc()` at the call. -/
def RiskManager._resetIfNewDay (st : RiskManager) (todayUtc : ℕ) : RiskManager :=
  if todayUtc ≠ st._sessionDate then
    { st with _sessionDate := todayUtc
              _dayStartEq := st.equity
              _dailyPnl := 0
              _tradeCount := 0 }
  else st

/-- The ordered sequence of admission checks of `canTrade`, evaluated on the
(already day-reset) state.  `wallNowMs` is `Date.now()` at the call. -/
def RiskManager.gateChecks (st : RiskManager) (openTradeCount : ℕ) (wallNowMs : ℚ) : Decision :=
  if openTradeCount ≥ maxOpenTrades then ⟨false, "Max open trades"⟩
  else if st._dailyPnl / st._dayStartEq * 100 ≤ -maxDailyDrawdownPct then
    ⟨false, "Daily drawdown limit hit"⟩
  else if st._dailyPnl ≤ -maxDailyLossUsd then ⟨false, "Daily USD loss limit hit"⟩
  else if st._tradeCount ≥ 5 then ⟨false, "Max trades per day reached"⟩
  else
    match st._lastTradeTime with
    | some t => if wallNowMs - t < 15 * 60 * 1000 then ⟨false, "Cooling period"⟩ else ⟨true, ""⟩
    | none => ⟨true, ""⟩

/-- `canTrade(openTradeCount)`: first applies `_resetIfNewDay()`, then runs
the gates on the reset state; returns the new state with the decision. -/
def RiskManager.canTrade (st : RiskManager) (openTradeCount : ℕ) (todayUtc : ℕ)
    (wallNowMs : ℚ) : RiskManager × Decision :=
  let st' := st._resetIfNewDay todayUtc
  (st', st'.gateChecks openTradeCount wallNowMs)

/-- `calculatePositionSize(signal)`.  `minUnits` — Modelled from the spec:
the JS reads `CFG.instrument.minUnits`, but neither configuration variant
under `src/` defines `minUnits` (it belongs to a broker-variant `config.js`
absent from the snapshot); per the spec it is "a configured minimum unit
size", kept here as an explicit parameter. -/
def RiskManager.calculatePositionSize (st : RiskManager) (signal : Signal)
    (minUnits : ℚ) : ℚ :=
  let riskAmount := min (st.equity * (maxRiskPct / 100)) maxRiskUsd
  let slDistance := |signal.entryPrice - signal.stopLoss|
  if slDistance ≤ 0 then 0
  else max ((⌊riskAmount / slDistance⌋ : ℤ) : ℚ) minUnits

/-- `calculateTrailingStop(direction, entry, currentPrice, atr, currentSl)`
(reads no instance state). -/
def calculateTrailingStop (direction : Dir) (entry currentPrice atr currentSl : ℚ) : ℚ :=
  let profitDist := if direction = Dir.buy then currentPrice - entry else entry - currentPrice
  if profitDist < atr * trailingSlActivationMult then currentSl
  else
    let breakeven := if direction = Dir.buy then entry + 0.05 else entry - 0.05
    let trailLevel :=
      if direction = Dir.buy then currentPrice - atr * trailingSlDistanceMult
      else currentPrice + atr * trailingSlDistanceMult
    if direction = Dir.buy then max (max currentSl breakeven) trailLevel
    else min (min currentSl breakeven) trailLevel

/-! Backtest-engine helpers from `src/backtest/engine.js`. -/

/-- An open simulated position (the fields `checkExit`/`calcPnl` read). -/
structure Trade where
  entryTime : ℚ
  direction : Dir
  entryPrice : ℚ
  stopLoss : ℚ
  takeProfit : ℚ
  units : ℚ
deriving DecidableEq, Repr

/-- The engine's trade close reasons. -/
inductive ExitReason where
  | stop_loss
  | take_profit
  | end_of_data
deriving DecidableEq, Repr

/-- `checkExit(trade, nextBar)`: `{ exitPrice: null, .. }` becomes `none`. -/
def checkExit (trade : Trade) (nextBar : Candle) : Option (ℚ × ExitReason) :=
  let slHit : Bool :=
    if trade.direction = Dir.buy then decide (nextBar.low ≤ trade.stopLoss)
    else decide (nextBar.high ≥ trade.stopLoss)
  let tpHit : Bool :=
    if trade.direction = Dir.buy then decide (nextBar.high ≥ trade.takeProfit)
    else decide (nextBar.low ≤ trade.takeProfit)
  if slHit then some (trade.stopLoss, ExitReason.stop_loss)
  else if tpHit then some (trade.takeProfit, ExitReason.take_profit)
  else none

/-- `calcPnl(trade, exitPrice)`. -/
def calcPnl (trade : Trade) (exitPrice : ℚ) : ℚ :=
  if trade.direction = Dir.buy then (exitPrice - trade.entryPrice) * trade.units
  else (trade.entryPrice - exitPrice) * trade.units

/-! The signal generator from `src/strategy/signals.js` together with
`rsiDivergence` from `src/indicators/technical.js`. -/

/-- JS `Math.min(...l)`: `none` encodes the `Infinity` (positive) result on an
empty spread. -/
def listMin? (l : List ℚ) : Option ℚ :=
  match l with
  | [] => none
  | x :: xs => some (xs.foldl min x)

/-- JS `Math.max(...l)`: `none` encodes the `-Infinity` result on an empty
spread. -/
def listMax? (l : List ℚ) : Option ℚ :=
  match l with
  | [] => none
  | x :: xs => some (xs.foldl max x)

/-- JS `x < y` where both operands come from `Math.min` spreads, so a missing
value (`none`) is `+Infinity`. -/
def ltMinInf (x y : Option ℚ) : Bool :=
  match x, y with
  | none, _ => false
  | some _, none => true
  | some a, some b => decide (a < b)

/-- JS `x > y` where both operands come from `Math.max` spreads, so a missing
value (`none`) is `-Infinity`. -/
def gtMaxInf (x y : Option ℚ) : Bool :=
  match x, y with
  | none, _ => false
  | some _, none => true
  | some a, some b => decide (b < a)

/-- `rsiDivergence(candles, lookback)` from `src/indicators/technical.js`:
split the last `lookback` bars into two halves, compare price and RSI
extremes between the halves. -/
def rsiDivergence (candles : List Candle) (lookback : ℕ) : DivKind :=
  if candles.length < lookback then DivKind.noDiv
  else
    let window := candles.drop (candles.length - lookback)
    let half := lookback / 2
    let first := window.take half
    let second := window.drop half
    let closeLow1 := listMin? (first.map (·.close))
    let closeLow2 := listMin? (second.map (·.close))
    let rsiLow1 := listMin? (first.filterMap (·.rsi))
    let rsiLow2 := listMin? (second.filterMap (·.rsi))
    let closeHigh1 := listMax? (first.map (·.close))
    let closeHigh2 := listMax? (second.map (·.close))
    let rsiHigh1 := listMax? (first.filterMap (·.rsi))
    let rsiHigh2 := listMax? (second.filterMap (·.rsi))
    if ltMinInf closeLow2 closeLow1 && ltMinInf rsiLow1 rsiLow2 then DivKind.bullish
    else if gtMaxInf closeHigh2 closeHigh1 && gtMaxInf rsiHigh1 rsiHigh2 then DivKind.bearish
    else DivKind.noDiv

/-- `trendAligned` in `_score`: the candidate direction goes with the
higher-timeframe trend integer. -/
def trendAlignedB (isBuy : Bool) (h1Trend : ℤ) : Bool :=
  (isBuy && decide (h1Trend = 1)) || (!isBuy && decide (h1Trend = -1))

/-- `isCounterTrend` in `_score`. -/
def isCounterTrendB (isBuy : Bool) (h1Trend : ℤ) : Bool :=
  !trendAlignedB isBuy h1Trend && !decide (h1Trend = 0)

/-- `divConfirmed` in `_score`: the RSI divergence confirms the candidate
direction. -/
def divConfirmedB (isBuy : Bool) (rsiDiv : DivKind) : Bool :=
  (isBuy && decide (rsiDiv = DivKind.bullish)) || (!isBuy && decide (rsiDiv = DivKind.bearish))

/-- JS `candles.at(-2)` guarded by `candles.length >= 2` (as in checks three
and four of `_score`). -/
def atNeg2 (l : List Candle) : Option Candle :=
  if l.length < 2 then none else l.get? (l.length - 2)

/-- Check one of `_score` (scoring part): trend alignment, or confirming
divergence replacing the trend point. -/
def check1 (trendAligned divConfirmed : Bool) : Bool :=
  trendAligned || divConfirmed

/-- Check two of `_score`: the RSI zone condition appropriate to trend
alignment. -/
def check2 (isBuy : Bool) (rsi : Option ℚ) (trendAligned divConfirmed isCounterTrend : Bool) :
    Bool :=
  match rsi with
  | none => false
  | some r =>
    if isBuy then
      if r < rsiOversold then true
      else if trendAligned && decide (r < 55) then true
      else if divConfirmed && !isCounterTrend then true
      else false
    else
      if r > rsiOverbought then true
      else if trendAligned && decide (r > 45) then true
      else if divConfirmed && !isCounterTrend then true
      else false

/-- Check three of `_score`: a MACD crossover in the candidate direction with
histogram confirmation, against the previous bar. -/
def check3 (isBuy : Bool) (bar : Candle) (prev : Option Candle) : Bool :=
  match prev with
  | none => false
  | some p =>
    match bar.macdLine, bar.macdSignal, bar.macdHist, p.macdLine, p.macdSignal with
    | some m, some s, some h, some mp, some sp =>
      if isBuy then decide (mp ≤ sp) && decide (m > s) && decide (h > 0)
      else decide (mp ≥ sp) && decide (m < s) && decide (h < 0)
    | _, _, _, _, _ => false

/-- Check four of `_score`: a stochastic crossover away from the extreme
ceiling. -/
def check4 (isBuy : Bool) (bar : Candle) (prev : Option Candle) : Bool :=
  match prev with
  | none => false
  | some p =>
    match bar.stochK, bar.stochD, p.stochK, p.stochD with
    | some k, some d, some kp, some dp =>
      if isBuy then
        decide (kp ≤ dp) && decide (k > d) && decide (k < stochOb) && decide (kp < stochOb)
      else
        decide (kp ≥ dp) && decide (k < d) && decide (k > stochOs) && decide (kp > stochOs) &&
          decide (k < 90)
    | _, _, _, _ => false

/-- Check five of `_score`: price at the outer volatility band. -/
def check5 (isBuy : Bool) (bar : Candle) : Bool :=
  match bar.bbUpper, bar.bbLower, bar.atr with
  | some bu, some bl, some a =>
    if isBuy then decide (bar.close ≤ bl + 0.3 * a)
    else decide (bar.close ≥ bu - 0.3 * a)
  | _, _, _ => false

/-- `nearSupport` / `nearResistance` of check five (reason text only). -/
def nearLevelB (close : ℚ) (lvl : Option ℚ) (atr : Option ℚ) : Bool :=
  match lvl, atr with
  | some v, some a => decide (|close - v| < 0.5 * a)
  | _, _ => false

/-- The `{ score, reasons, requiredScore, isCounterTrend }` object returned
by `_score`. -/
structure ScoreResult where
  score : ℕ
  reasons : List String
  requiredScore : ℕ
  isCounterTrend : Bool
deriving DecidableEq, Repr

/-- `SignalGenerator._score(direction, bar, h1Bar, candles, rsiDiv)`.  The
score accumulates one point per satisfied check (`check1` .. `check5`); the
reason strings drop the JS template-interpolated numbers. -/
def SignalGenerator._score (direction : Dir) (bar h1Bar : Candle) (candles : List Candle)
    (rsiDiv : DivKind) : ScoreResult :=
  let isBuy := decide (direction = Dir.buy)
  let h1Trend := h1Bar.trendDir
  let trendAligned := trendAlignedB isBuy h1Trend
  let isCounterTrend := isCounterTrendB isBuy h1Trend
  let divConfirmed := divConfirmedB isBuy rsiDiv
  if isCounterTrend && !divConfirmed then
    { score := 0, reasons := ["counter-trend without divergence"], requiredScore := 99,
      isCounterTrend := isCounterTrend }
  else
    let requiredScore := if isCounterTrend then minSignalScore + 1 else minSignalScore
    let prev := atNeg2 candles
    let b1 := check1 trendAligned divConfirmed
    let b2 := check2 isBuy bar.rsi trendAligned divConfirmed isCounterTrend
    let b3 := check3 isBuy bar prev
    let b4 := check4 isBuy bar prev
    let b5 := check5 isBuy bar
    { score := b1.toNat + b2.toNat + b3.toNat + b4.toNat + b5.toNat
      reasons :=
        (if trendAligned then [if isBuy then "M15 trend bullish" else "M15 trend bearish"]
         else if divConfirmed then ["RSI divergence counter-trend confirmed"] else []) ++
        (if b2 then [if isBuy then "RSI buy zone" else "RSI sell zone"] else []) ++
        (if b3 then [if isBuy then "MACD bullish crossover" else "MACD bearish crossover"]
         else []) ++
        (if b4 then [if isBuy then "Stoch cross up" else "Stoch cross down"] else []) ++
        (if b5 then
          [if isBuy then
            "Price at BB lower" ++
              (if nearLevelB bar.close bar.lastSL bar.atr then " + support zone" else "")
           else
            "Price at BB upper" ++
              (if nearLevelB bar.close bar.lastSH bar.atr then " + resistance zone" else "")]
         else [])
      requiredScore := requiredScore
      isCounterTrend := isCounterTrend }

/-- The `{ entry, sl, tp }` object returned by `_calculateLevels`. -/
structure Levels where
  entry : ℚ
  sl : ℚ
  tp : ℚ
deriving DecidableEq, Repr

/-- `SignalGenerator._calculateLevels(direction, price, atr, candles)`. -/
def SignalGenerator._calculateLevels (direction : Dir) (price atr : ℚ)
    (candles : List Candle) : Option Levels :=
  let bar := lastD candles
  let atrSlDist := atr * slAtrMult
  let atrSl := if direction = Dir.buy then price - atrSlDist else price + atrSlDist
  let structSl :=
    if direction = Dir.buy then
      match bar.lastSL with
      | some v => v - 0.2 * atr
      | none => atrSl
    else
      match bar.lastSH with
      | some v => v + 0.2 * atr
      | none => atrSl
  let hardMinDist := 1.0 * atr
  let sl :=
    if direction = Dir.buy then min (max atrSl structSl) (price - hardMinDist)
    else max (min atrSl structSl) (price + hardMinDist)
  if direction = Dir.buy ∧ sl ≥ price then none
  else if direction = Dir.sell ∧ sl ≤ price then none
  else
    let slDist := |price - sl|
    let tp := if direction = Dir.buy then price + slDist * tpSlMult else price - slDist * tpSlMult
    some { entry := price, sl := sl, tp := tp }

/-- The direction/result selection of `evaluate` (`buyOk`, `sellOk` and the
two-armed preference, JS lines 78-90 of `signals.js`): buy when it qualifies
and either sell does not or buy's score is at least sell's; otherwise sell
when it qualifies. -/
def chooseDirection (buyResult sellResult : ScoreResult) : Option (Dir × ScoreResult) :=
  let buyOk := buyResult.score ≥ buyResult.requiredScore
  let sellOk := sellResult.score ≥ sellResult.requiredScore
  if buyOk ∧ (¬sellOk ∨ buyResult.score ≥ sellResult.score) then some (Dir.buy, buyResult)
  else if sellOk then some (Dir.sell, sellResult)
  else none

/-- `SignalGenerator.evaluate(m15Candles, h1Candles)`. -/
def SignalGenerator.evaluate (m15Candles h1Candles : List Candle) : Option Signal :=
  if m15Candles.length < 100 ∨ h1Candles.length < 30 then none
  else
    let bar := lastD m15Candles
    let h1Bar := lastD h1Candles
    match bar.atr with
    | none => none
    | some atr =>
      if atr < minAtr ∨ atr > maxAtr then none
      else
        let currentPrice := bar.close
        let rsiDiv := rsiDivergence m15Candles 20
        let buyResult := SignalGenerator._score Dir.buy bar h1Bar m15Candles rsiDiv
        let sellResult := SignalGenerator._score Dir.sell bar h1Bar m15Candles rsiDiv
        match chooseDirection buyResult sellResult with
        | none => none
        | some (direction, chosen) =>
          match SignalGenerator._calculateLevels direction currentPrice atr m15Candles with
          | none => none
          | some levels =>
            let risk := |levels.entry - levels.sl|
            let reward := |levels.tp - levels.entry|
            let rr := if risk > 0 then reward / risk else 0
            if rr < minRrRatio then none
            else
              some { direction := direction
                     entryPrice := round2 levels.entry
                     stopLoss := round2 levels.sl
                     takeProfit := round2 levels.tp
                     rrRatio := round2 rr
                     score := chosen.score
                     requiredScore := chosen.requiredScore
                     atr := round2 atr
                     isCounterTrend := chosen.isCounterTrend
                     reasons := chosen.reasons
                     timestamp := bar.time }

/-- `evaluate` with the minimum risk-reward rejection branch removed
(`if (rr < str.minRrRatio) return null` deleted), used to state that this
branch is unreachable. -/
def evaluateWithoutRrCheck (m15Candles h1Candles : List Candle) : Option Signal :=
  if m15Candles.length < 100 ∨ h1Candles.length < 30 then none
  else
    let bar := lastD m15Candles
    let h1Bar := lastD h1Candles
    match bar.atr with
    | none => none
    | some atr =>
      if atr < minAtr ∨ atr > maxAtr then none
      else
        let currentPrice := bar.close
        let rsiDiv := rsiDivergence m15Candles 20
        let buyResult := SignalGenerator._score Dir.buy bar h1Bar m15Candles rsiDiv
        let sellResult := SignalGenerator._score Dir.sell bar h1Bar m15Candles rsiDiv
        match chooseDirection buyResult sellResult with
        | none => none
        | some (direction, chosen) =>
          match SignalGenerator._calculateLevels direction currentPrice atr m15Candles with
          | none => none
          | some levels =>
            let risk := |levels.entry - levels.sl|
            let reward := |levels.tp - levels.entry|
            let rr := if risk > 0 then reward / risk else 0
            some { direction := direction
                   entryPrice := round2 levels.entry
                   stopLoss := round2 levels.sl
                   takeProfit := round2 levels.tp
                   rrRatio := round2 rr
                   score := chosen.score
                   requiredScore := chosen.requiredScore
                   atr := round2 atr
                   isCounterTrend := chosen.isCounterTrend
                   reasons := chosen.reasons
                   timestamp := bar.time }

/-- The buy-side score object `evaluate` computes for the given windows. -/
def buyScoreOf (m15Candles h1Candles : List Candle) : ScoreResult :=
  SignalGenerator._score Dir.buy (lastD m15Candles) (lastD h1Candles) m15Candles
    (rsiDivergence m15Candles 20)

/-- The sell-side score object `evaluate` computes for the given windows. -/
def sellScoreOf (m15Candles h1Candles : List Candle) : ScoreResult :=
  SignalGenerator._score Dir.sell (lastD m15Candles) (lastD h1Candles) m15Candles
    (rsiDivergence m15Candles 20)

/-! Structural swing enrichment (`_addSwingPoints` of
`src/indicators/technical.js`) and the backtest engine's resampling and
slicing (`resampleToM15` and the main loop of `src/backtest/engine.js`). -/

/-- One step of the swing-marking loop of `_addSwingPoints`: bar `i` is a
confirmed swing high (low) when its high (low) is the maximum (minimum) over
the symmetric window `[i - n, i + n]`; outside the loop range both marks are
reset to null. -/
def swingMarkAt (full : List Candle) (i : ℕ) (c : Candle) : Candle :=
  if swingWindow ≤ i ∧ i < full.length - swingWindow then
    let window := (full.drop (i - swingWindow)).take (2 * swingWindow + 1)
    { c with
      swingHigh := if listMax? (window.map (·.high)) = some c.high then some c.high else none
      swingLow := if listMin? (window.map (·.low)) = some c.low then some c.low else none }
  else
    { c with swingHigh := none, swingLow := none }

/-- The indexed traversal applying `swingMarkAt` to every bar. -/
def swingMarkAux (full : List Candle) : ℕ → List Candle → List Candle
  | _, [] => []
  | i, c :: rest => swingMarkAt full i c :: swingMarkAux full (i + 1) rest

/-- The forward-fill pass of `_addSwingPoints`: every bar learns the most
recent confirmed swing level of each kind. -/
def forwardFillSwings : Option ℚ → Option ℚ → List Candle → List Candle
  | _, _, [] => []
  | sh, sl, c :: rest =>
    let sh' := match c.swingHigh with | some v => some v | none => sh
    let sl' := match c.swingLow with | some v => some v | none => sl
    { c with lastSH := sh', lastSL := sl' } :: forwardFillSwings sh' sl' rest

/-- `_addSwingPoints(candles)`: mark confirmed fractal swings (using up to
`swingWindow` bars of future data) and forward-fill `lastSH` / `lastSL`. -/
def addSwingPoints (candles : List Candle) : List Candle :=
  forwardFillSwings none none (swingMarkAux candles 0 candles)

/-- A raw OHLCV bar as produced by `resampleToM15` (before enrichment). -/
structure RawBar where
  time : ℚ
  open_ : ℚ
  high : ℚ
  low : ℚ
  close : ℚ
  volume : ℚ
deriving DecidableEq, Repr

/-- The 15-minute UTC bucket key of `resampleToM15`.  The JS key is the
string `Y-M-D-H-(15-minute slot)` built from the UTC calendar fields; for
epoch-millisecond times this identifies exactly the bucket
`⌊time / 900000⌋`. -/
def bucketKey (t : ℚ) : ℤ := ⌊t / 900000⌋

/-- The bucket keys in first-appearance order (the JS `Map` iterates its
keys in insertion order). -/
def bucketKeysOf (candles : List Candle) : List ℤ :=
  candles.foldl
    (fun acc c => if acc.contains (bucketKey c.time) then acc else acc ++ [bucketKey c.time])
    []

/-- `resampleToM15(candles)` from `src/backtest/engine.js`: group bars into
15-minute buckets; a bucket's open is its first bar's open, high/low are the
extrema, close is its last bar's close, volume the sum; sort by bucket
time. -/
def resampleToM15 (candles : List Candle) : List RawBar :=
  let groups := (bucketKeysOf candles).map
    (fun k => candles.filter (fun c => decide (bucketKey c.time = k)))
  ((groups.filter (fun g => decide (g.length > 0))).map
    (fun g =>
      { time := (g.headD defaultCandle).time
        open_ := (g.headD defaultCandle).open_
        high := (listMax? (g.map (·.high))).getD 0
        low := (listMin? (g.map (·.low))).getD 0
        close := (lastD g).close
        volume := g.foldl (fun s c => s + c.volume) 0 })).mergeSort
    (fun a b => decide (a.time ≤ b.time))

/-- The M5 window the backtest engine actually passes to the generator when
processing bar `i`: the engine enriches the full series once up front
(`engine.js` line 53 — modelled here by the core-owned swing enrichment; the
remaining indicator fields are causal per-bar inputs carried on the bars)
and slices `(0, i + 1)` (line 110). -/
def engineM5Slice (m5Full : List Candle) (i : ℕ) : List Candle :=
  (addSwingPoints m5Full).take (i + 1)

/-- The same window computed as the no-lookahead property demands: truncate
the raw series immediately after bar `i`, then enrich. -/
def truncatedM5Slice (m5Full : List Candle) (i : ℕ) : List Candle :=
  addSwingPoints (m5Full.take (i + 1))

/-- The M15 trend slice the engine actually passes at bar time `t`: resample
the full M5 series (`engine.js` line 56) and keep buckets with
`time ≤ t` (line 78). -/
def engineM15Slice (m5Full : List Candle) (t : ℚ) : List RawBar :=
  (resampleToM15 m5Full).filter (fun b => decide (b.time ≤ t))

/-- The M15 trend slice computed as the no-lookahead property demands:
truncate the raw M5 series at time `t`, then resample. -/
def truncatedM15Slice (m5Full : List Candle) (t : ℚ) : List RawBar :=
  resampleToM15 (m5Full.filter (fun c => decide (c.time ≤ t)))

/-- A bar of the concrete no-lookahead counter-instance: constant price 100
with a configurable high. -/
def c1Bar (t hi : ℚ) : Candle :=
  { time := t, open_ := 100, high := hi, low := 100, close := 100, volume := 0 }

/-- Twelve M5 bars: bar 5 is the only local high (110), confirmed as a swing
high only by the five bars that FOLLOW it. -/
def c1Bars : List Candle :=
  [c1Bar 0 100, c1Bar 300000 100, c1Bar 600000 100, c1Bar 900000 100,
   c1Bar 1200000 100, c1Bar 1500000 110, c1Bar 1800000 100, c1Bar 2100000 100,
   c1Bar 2400000 100, c1Bar 2700000 100, c1Bar 3000000 100, c1Bar 3300000 100]

/-- A second concrete bar of the resampling counter-instance, with a chosen
close. -/
def c1Bar2 (t cl : ℚ) : Candle :=
  { time := t, open_ := cl, high := cl, low := cl, close := cl, volume := 0 }

/-- Three M5 bars inside one 15-minute bucket (00:00, 00:05, 00:10). -/
def c1M5 : List Candle := [c1Bar2 0 1, c1Bar2 300000 2, c1Bar2 600000 3]

/-! Concrete evaluation scenarios. -/

/-- Scenario A filler bar: flat price 90, no indicator data. -/
def fillerA : Candle :=
  { time := 0, open_ := 90, high := 90, low := 90, close := 90, volume := 0 }

/-- Scenario A signal bar: ATR 1, oversold RSI, price on the lower band. -/
def sigBarA : Candle :=
  { time := 1000, open_ := 90, high := 90, low := 90, close := 90, volume := 0,
    atr := some 1, rsi := some 30, bbUpper := some 100, bbLower := some 90 }

/-- Scenario A higher-timeframe bar: bullish trend stack. -/
def h1BarA : Candle := { defaultCandle with trendDir := 1 }

/-- Scenario A signal window: 99 fillers and the signal bar. -/
def mA : List Candle := List.replicate 99 fillerA ++ [sigBarA]

/-- Scenario A trend window. -/
def hA : List Candle := List.replicate 30 h1BarA

/-- The signal scenario A produces: a trend-aligned buy scoring three of
five, stop at one and a half ATR, target at twice the stop distance. -/
def sigA : Signal :=
  { direction := Dir.buy, entryPrice := 90, stopLoss := 88.5, takeProfit := 93,
    rrRatio := 2, score := 3, requiredScore := 3, atr := 1, isCounterTrend := false,
    reasons := ["M15 trend bullish", "RSI buy zone", "Price at BB lower"],
    timestamp := 1000 }

/-- Scenario B filler bar: flat price 100, no indicator data. -/
def fillerB : Candle :=
  { time := 0, open_ := 100, high := 100, low := 100, close := 100, volume := 0 }

/-- Scenario B first-half bar of the divergence window: RSI 50. -/
def fB50 : Candle := { fillerB with rsi := some 50 }

/-- Scenario B second-half bar of the divergence window: RSI 60. -/
def fB60 : Candle := { fillerB with rsi := some 60 }

/-- Scenario B previous bar: MACD line above its signal (so only a sell
crossover can complete on the signal bar). -/
def prevB : Candle := { fB60 with macdLine := some 1, macdSignal := some 0 }

/-- Scenario B signal bar: a lower low with a higher RSI low (bullish
divergence), RSI 70 (overbought for the sell side), a completed bearish MACD
crossover, and a degenerate band touching the price on both sides. -/
def sigBarB : Candle :=
  { time := 2000, open_ := 95, high := 95, low := 95, close := 95, volume := 0,
    atr := some 1, rsi := some 70, macdLine := some (-1), macdSignal := some 0,
    macdHist := some (-1), bbUpper := some 95, bbLower := some 95 }

/-- The last twenty bars of scenario B's signal window: ten bars at RSI 50,
eight at RSI 60, the MACD set-up bar and the signal bar. -/
def mBtail : List Candle :=
  List.replicate 10 fB50 ++ (List.replicate 8 fB60 ++ [prevB, sigBarB])

/-- Scenario B signal window: both directions score exactly three of five
while the higher-timeframe trend is neutral. -/
def mB : List Candle := List.replicate 80 fillerB ++ mBtail

/-- Scenario B trend window: neutral bars only. -/
def hB : List Candle := List.replicate 30 defaultCandle

/-- The signal scenario B produces: the buy side of an exact three-three
tie under a neutral trend. -/
def sigB : Signal :=
  { direction := Dir.buy, entryPrice := 95, stopLoss := 93.5, takeProfit := 98,
    rrRatio := 2, score := 3, requiredScore := 3, atr := 1, isCounterTrend := false,
    reasons := ["RSI divergence counter-trend confirmed", "RSI buy zone",
                "Price at BB lower"],
    timestamp := 2000 }

/-! Theorems. -/

/-- Helper: the head of `List.scanl` is its initial accumulator. -/
theorem scanl_head (f : ℚ → ℚ → ℚ) (s : ℚ) (ps : List ℚ) :
    (ps.scanl f s).head? = some s := by
  cases ps <;> simp [List.scanl]

/-- Helper: folding a step that never decreases the accumulator yields a
`scanl` trace that is a `≤`-chain. -/
theorem chain'_scanl_of_le (f : ℚ → ℚ → ℚ) (h : ∀ s p, s ≤ f s p) :
    ∀ (ps : List ℚ) (s : ℚ), List.Chain' (· ≤ ·) (ps.scanl f s) := by
  intro ps
  induction ps with
  | nil => intro s; simp [List.scanl]
  | cons p ps ih =>
    intro s
    rw [List.scanl]
    rw [List.chain'_cons']
    refine ⟨?_, ih (f s p)⟩
    intro y hy
    rw [scanl_head] at hy
    cases hy
    exact h s p

/-- Helper: folding a step that never increases the accumulator yields a
`scanl` trace that is a `≥`-chain. -/
theorem chain'_scanl_of_ge (f : ℚ → ℚ → ℚ) (h : ∀ s p, f s p ≤ s) :
    ∀ (ps : List ℚ) (s : ℚ), List.Chain' (· ≥ ·) (ps.scanl f s) := by
  intro ps
  induction ps with
  | nil => intro s; simp [List.scanl]
  | cons p ps ih =>
    intro s
    rw [List.scanl]
    rw [List.chain'_cons']
    refine ⟨?_, ih (f s p)⟩
    intro y hy
    rw [scanl_head] at hy
    cases hy
    exact h s p

/-- C6: `calculateTrailingStop` is a one-directional ratchet: the result is
never worse for the position than the input stop (never lower for a long,
never higher for a short); if the signed unrealized profit has not reached
the activation ATR multiple the current stop is returned unchanged; once
active the result is the max (long) / min (short) of the current stop, a
fixed 0.05 offset beyond breakeven, and a trailing level at the configured
ATR multiple behind the current price; consequently over any sequence of
prices the successive stops of a long never decrease and those of a short
never increase. -/
theorem c6_trailing_ratchet (direction : Dir) (entry currentPrice atr currentSl : ℚ) :
    (direction = Dir.buy → currentSl ≤ calculateTrailingStop direction entry currentPrice atr currentSl) ∧
    (direction = Dir.sell → calculateTrailingStop direction entry currentPrice atr currentSl ≤ currentSl) ∧
    ((if direction = Dir.buy then currentPrice - entry else entry - currentPrice) <
        atr * trailingSlActivationMult →
      calculateTrailingStop direction entry currentPrice atr currentSl = currentSl) ∧
    (direction = Dir.buy → atr * trailingSlActivationMult ≤ currentPrice - entry →
      calculateTrailingStop direction entry currentPrice atr currentSl =
        max (max currentSl (entry + 0.05)) (currentPrice - atr * trailingSlDistanceMult)) ∧
    (direction = Dir.sell → atr * trailingSlActivationMult ≤ entry - currentPrice →
      calculateTrailingStop direction entry currentPrice atr currentSl =
        min (min currentSl (entry - 0.05)) (currentPrice + atr * trailingSlDistanceMult)) ∧
    (direction = Dir.buy → ∀ ps : List ℚ, List.Chain' (· ≤ ·)
      (ps.scanl (fun s p => calculateTrailingStop Dir.buy entry p atr s) currentSl)) ∧
    (direction = Dir.sell → ∀ ps : List ℚ, List.Chain' (· ≥ ·)
      (ps.scanl (fun s p => calculateTrailingStop Dir.sell entry p atr s) currentSl)) := by
  have hb : ∀ p s : ℚ, s ≤ calculateTrailingStop Dir.buy entry p atr s := by
    intro p s
    unfold calculateTrailingStop
    simp only [reduceIte]
    split
    · exact le_refl s
    · exact le_trans (le_max_left s (entry + 0.05)) (le_max_left _ _)
  have hs : ∀ p s : ℚ, calculateTrailingStop Dir.sell entry p atr s ≤ s := by
    intro p s
    unfold calculateTrailingStop
    simp only [reduceCtorEq, reduceIte]
    split
    · exact le_refl s
    · exact le_trans (min_le_left _ _) (min_le_left s (entry - 0.05))
  refine ⟨?_, ?_, ?_, ?_, ?_, ?_, ?_⟩
  · intro h; subst h; exact hb currentPrice currentSl
  · intro h; subst h; exact hs currentPrice currentSl
  · intro h
    unfold calculateTrailingStop
    cases direction <;> simp_all
  · intro h hact; subst h
    unfold calculateTrailingStop
    simp only [reduceIte]
    rw [if_neg (by linarith)]
  · intro h hact; subst h
    unfold calculateTrailingStop
    simp only [reduceCtorEq, reduceIte]
    rw [if_neg (by linarith)]
  · intro h ps
    exact chain'_scanl_of_le _ (fun s p => hb p s) ps currentSl
  · intro h ps
    exact chain'_scanl_of_ge _ (fun s p => hs p s) ps currentSl

/-- Witness for C6 at a concrete long position: entry 100, ATR 2, stop 97;
price 103 has reached the activation multiple, so the stop ratchets to the
trailing level 103 − 0.8 × 2 = 101.4, which is not below the input stop. -/
theorem c6_trailing_ratchet_witness :
    calculateTrailingStop Dir.buy 100 103 2 97 =
      max (max 97 (100 + 0.05)) (103 - 2 * trailingSlDistanceMult) ∧
    (97 : ℚ) ≤ calculateTrailingStop Dir.buy 100 103 2 97 := by
  constructor
  · exact (c6_trailing_ratchet Dir.buy 100 103 2 97).2.2.2.1 rfl (by norm_num [trailingSlActivationMult])
  · exact (c6_trailing_ratchet Dir.buy 100 103 2 97).1 rfl

/-- C3: backtest exit semantics of `checkExit` — a long's stop-loss exit is
recorded iff the next bar's low reaches the stop, its take-profit exit is
recorded iff the next bar's high reaches the target and the stop did not
also trigger (so when both trigger the recorded exit is the stop-loss), the
trade is closed exactly at the triggered level, and symmetrically for a
short. -/
theorem c3_checkExit_semantics (trade : Trade) (nextBar : Candle) :
    (trade.direction = Dir.buy →
      ((checkExit trade nextBar = some (trade.stopLoss, ExitReason.stop_loss)) ↔
        nextBar.low ≤ trade.stopLoss) ∧
      ((checkExit trade nextBar = some (trade.takeProfit, ExitReason.take_profit)) ↔
        (nextBar.high ≥ trade.takeProfit ∧ ¬ nextBar.low ≤ trade.stopLoss)) ∧
      (nextBar.low ≤ trade.stopLoss → nextBar.high ≥ trade.takeProfit →
        checkExit trade nextBar = some (trade.stopLoss, ExitReason.stop_loss))) ∧
    (trade.direction = Dir.sell →
      ((checkExit trade nextBar = some (trade.stopLoss, ExitReason.stop_loss)) ↔
        nextBar.high ≥ trade.stopLoss) ∧
      ((checkExit trade nextBar = some (trade.takeProfit, ExitReason.take_profit)) ↔
        (nextBar.low ≤ trade.takeProfit ∧ ¬ nextBar.high ≥ trade.stopLoss)) ∧
      (nextBar.high ≥ trade.stopLoss → nextBar.low ≤ trade.takeProfit →
        checkExit trade nextBar = some (trade.stopLoss, ExitReason.stop_loss))) := by
  constructor
  · intro h
    refine ⟨?_, ?_, ?_⟩
    · unfold checkExit
      rw [h]
      by_cases hsl : nextBar.low ≤ trade.stopLoss <;> simp [hsl]
    · unfold checkExit
      rw [h]
      by_cases hsl : nextBar.low ≤ trade.stopLoss <;>
        by_cases htp : nextBar.high ≥ trade.takeProfit <;> simp [hsl, htp]
    · intro hsl htp
      unfold checkExit
      rw [h]
      simp [hsl]
  · intro h
    refine ⟨?_, ?_, ?_⟩
    · unfold checkExit
      rw [h]
      by_cases hsl : nextBar.high ≥ trade.stopLoss <;> simp [hsl]
    · unfold checkExit
      rw [h]
      by_cases hsl : nextBar.high ≥ trade.stopLoss <;>
        by_cases htp : nextBar.low ≤ trade.takeProfit <;> simp [hsl, htp]
    · intro hsl htp
      unfold checkExit
      rw [h]
      simp [hsl]

/-- Witness for C3, the tie scenario of the claim: a long with stop 88 and
target 95 against a next bar spanning low 87 to high 96 — both levels
trigger, and the recorded exit is the stop-loss at the stop price. -/
theorem c3_checkExit_semantics_witness :
    checkExit { entryTime := 0, direction := Dir.buy, entryPrice := 90,
                stopLoss := 88, takeProfit := 95, units := 1 }
        { defaultCandle with low := 87, high := 96 } =
      some (88, ExitReason.stop_loss) :=
  ((c3_checkExit_semantics
      { entryTime := 0, direction := Dir.buy, entryPrice := 90,
        stopLoss := 88, takeProfit := 95, units := 1 }
      { defaultCandle with low := 87, high := 96 }).1 rfl).2.2
    (by norm_num) (by norm_num)

/-- C4: position sizing — with a positive stop distance the unit count is
the floor of (the minimum of 1 percent of equity and the 200 USD hard cap)
divided by the stop distance, then floored to the configured minimum unit
size; a non-positive stop distance yields 0; and the spec scenario equity
10000, stop distance 1.50 gives 66 units. -/
theorem c4_position_sizing (st : RiskManager) (signal : Signal) (minUnits : ℚ) :
    (0 < |signal.entryPrice - signal.stopLoss| →
      st.calculatePositionSize signal minUnits =
        max ((⌊min (st.equity * (1 / 100)) 200 / |signal.entryPrice - signal.stopLoss|⌋ : ℤ) : ℚ)
          minUnits) ∧
    (|signal.entryPrice - signal.stopLoss| ≤ 0 →
      st.calculatePositionSize signal minUnits = 0) ∧
    (st.equity = 10000 → |signal.entryPrice - signal.stopLoss| = 3 / 2 → minUnits ≤ 66 →
      st.calculatePositionSize signal minUnits = 66) := by
  refine ⟨?_, ?_, ?_⟩
  · intro hpos
    unfold RiskManager.calculatePositionSize
    rw [if_neg (by linarith)]
    norm_num [maxRiskPct, maxRiskUsd]
  · intro hnonpos
    unfold RiskManager.calculatePositionSize
    rw [if_pos hnonpos]
  · intro heq hdist hmin
    unfold RiskManager.calculatePositionSize
    rw [hdist, heq]
    rw [if_neg (by norm_num)]
    have h1 : min ((10000 : ℚ) * (maxRiskPct / 100)) maxRiskUsd = 100 := by
      norm_num [maxRiskPct, maxRiskUsd]
    rw [h1]
    have h2 : (100 : ℚ) / (3 / 2) = 200 / 3 := by norm_num
    rw [h2]
    have h3 : (⌊(200 : ℚ) / 3⌋ : ℤ) = 66 := by
      rw [Int.floor_eq_iff]
      constructor <;> norm_num
    rw [h3]
    have : ((66 : ℤ) : ℚ) = 66 := by norm_num
    rw [this, max_eq_left hmin]

/-- Witness for C4: the spec scenario with a concrete account state and
signal (entry 100, stop 98.50, minimum unit size 1) sizes to 66 units. -/
theorem c4_position_sizing_witness :
    (mkRiskManager 10000 0).calculatePositionSize
      { direction := Dir.buy, entryPrice := 100, stopLoss := 98.5, takeProfit := 103,
        rrRatio := 2, score := 3, requiredScore := 3, atr := 1, isCounterTrend := false,
        reasons := [], timestamp := 0 } 1 = 66 :=
  (c4_position_sizing (mkRiskManager 10000 0) _ 1).2.2 rfl (by norm_num) (by norm_num)

/-- C7: daily-reset invariant of the admission check — `canTrade` applies the
daily-reset rule first (the decision equals the gates evaluated on the reset
state); when the calling day is later than the stored session date the daily
P/L and session trade count are reset to zero and the session-start equity
and date marker updated; a call on the stored session day leaves the state
unchanged (never a mid-day reset); and a repeated call on the same day after
any call is a no-op on the state (the reset happens exactly once per
day boundary). -/
theorem c7_daily_reset (st : RiskManager) (count todayUtc : ℕ) (wallNowMs : ℚ) :
    ((st.canTrade count todayUtc wallNowMs).2 =
      (st._resetIfNewDay todayUtc).gateChecks count wallNowMs) ∧
    (st._sessionDate < todayUtc →
      ((st.canTrade count todayUtc wallNowMs).1._dailyPnl = 0 ∧
       (st.canTrade count todayUtc wallNowMs).1._tradeCount = 0 ∧
       (st.canTrade count todayUtc wallNowMs).1._dayStartEq = st.equity ∧
       (st.canTrade count todayUtc wallNowMs).1._sessionDate = todayUtc)) ∧
    (st._sessionDate = todayUtc → (st.canTrade count todayUtc wallNowMs).1 = st) ∧
    (∀ (count2 : ℕ) (wall2 : ℚ),
      ((st.canTrade count todayUtc wallNowMs).1.canTrade count2 todayUtc wall2).1 =
        (st.canTrade count todayUtc wallNowMs).1) := by
  have hne : st._sessionDate < todayUtc → todayUtc ≠ st._sessionDate :=
    fun h => (Nat.ne_of_lt h).symm
  refine ⟨rfl, ?_, ?_, ?_⟩
  · intro hlt
    unfold RiskManager.canTrade RiskManager._resetIfNewDay
    rw [if_pos (hne hlt)]
    exact ⟨rfl, rfl, rfl, rfl⟩
  · intro heq
    unfold RiskManager.canTrade RiskManager._resetIfNewDay
    rw [if_neg (by simp [heq])]
  · intro count2 wall2
    unfold RiskManager.canTrade RiskManager._resetIfNewDay
    by_cases h : todayUtc = st._sessionDate
    · simp [h]
    · rw [if_pos h]
      simp

/-- Witness for C7: a session dated day 5 with a booked 100 USD loss and one
trade; the first `canTrade` on day 6 zeroes the daily P/L and trade count
and moves the marker, and calling again on day 6 changes nothing. -/
theorem c7_daily_reset_witness :
    (((mkRiskManager 10000 5).recordTradeClosed (-100)).canTrade 0 6 0).1._dailyPnl = 0 ∧
    (((mkRiskManager 10000 5).recordTradeClosed (-100)).canTrade 0 6 0).1._tradeCount = 0 ∧
    (((mkRiskManager 10000 5).recordTradeClosed (-100)).canTrade 0 6 0).1._sessionDate = 6 ∧
    ((((mkRiskManager 10000 5).recordTradeClosed (-100)).canTrade 0 6 0).1.canTrade 3 6 99).1 =
      (((mkRiskManager 10000 5).recordTradeClosed (-100)).canTrade 0 6 0).1 := by
  have h := c7_daily_reset ((mkRiskManager 10000 5).recordTradeClosed (-100)) 0 6 0
  have hlt : ((mkRiskManager 10000 5).recordTradeClosed (-100))._sessionDate < 6 := by
    decide
  exact ⟨(h.2.1 hlt).1, (h.2.1 hlt).2.1, (h.2.1 hlt).2.2.2, h.2.2.2 3 99⟩

/-- C9 (refuting the no-wall-clock-dependence part of the determinism claim):
the admission decision the simulator consults depends on the wall clock, not
only on the simulated data.  After `recordTradeOpened` at wall time 0, the
very same session state and simulated inputs are rejected by `canTrade` when
the call happens 60 wall-clock seconds later, yet allowed when it happens 16
wall-clock minutes later — so `run`, which consults these methods, is not a
function of the input bars and configuration alone. -/
theorem c9_wall_clock_dependence :
    ((((mkRiskManager 10000 0).recordTradeOpened 0).canTrade 0 0 60000).2.allowed = false) ∧
    ((((mkRiskManager 10000 0).recordTradeOpened 0).canTrade 0 0 960000).2.allowed = true) ∧
    (((mkRiskManager 10000 0).recordTradeOpened 0).canTrade 0 0 60000).2 ≠
      (((mkRiskManager 10000 0).recordTradeOpened 0).canTrade 0 0 960000).2 := by
  have h1 : (((mkRiskManager 10000 0).recordTradeOpened 0).canTrade 0 0 60000).2 =
      ⟨false, "Cooling period"⟩ := by
    unfold RiskManager.canTrade RiskManager.gateChecks RiskManager._resetIfNewDay
      RiskManager.recordTradeOpened mkRiskManager
    norm_num [maxOpenTrades, maxDailyDrawdownPct, maxDailyLossUsd]
  have h2 : (((mkRiskManager 10000 0).recordTradeOpened 0).canTrade 0 0 960000).2 =
      ⟨true, ""⟩ := by
    unfold RiskManager.canTrade RiskManager.gateChecks RiskManager._resetIfNewDay
      RiskManager.recordTradeOpened mkRiskManager
    norm_num [maxOpenTrades, maxDailyDrawdownPct, maxDailyLossUsd]
  refine ⟨by rw [h1], by rw [h2], by rw [h1, h2]; simp⟩

/-- Helper: `round2` overshoots its argument by at most 1/200. -/
theorem round2_le (v : ℚ) : round2 v ≤ v + 1 / 200 := by
  unfold round2
  rw [div_le_iff (by norm_num : (0:ℚ) < 100)]
  calc ((⌊v * 100 + 1 / 2⌋ : ℚ)) ≤ v * 100 + 1 / 2 := Int.floor_le _
    _ = (v + 1 / 200) * 100 := by ring

/-- Helper: `round2` undershoots its argument by less than 1/200. -/
theorem lt_round2 (v : ℚ) : v - 1 / 200 < round2 v := by
  unfold round2
  rw [lt_div_iff (by norm_num : (0:ℚ) < 100)]
  have h := Int.lt_floor_add_one (v * 100 + 1 / 2)
  have : (v - 1 / 200) * 100 = v * 100 + 1 / 2 - 1 := by ring
  rw [this]
  linarith

/-- Helper: inversion of a successful `_calculateLevels` — the entry is the
input price, the stop is at least one ATR away on the adverse side and
strictly on the adverse side, and the take-profit is the stop distance
scaled by `tpSlMult`. -/
theorem calculateLevels_some (direction : Dir) (price atr : ℚ) (candles : List Candle)
    (l : Levels) (h : SignalGenerator._calculateLevels direction price atr candles = some l) :
    l.entry = price ∧
    (direction = Dir.buy →
      l.sl ≤ price - atr ∧ l.sl < price ∧ l.tp = price + (price - l.sl) * tpSlMult) ∧
    (direction = Dir.sell →
      price + atr ≤ l.sl ∧ price < l.sl ∧ l.tp = price - (l.sl - price) * tpSlMult) := by
  cases direction with
  | buy =>
    unfold SignalGenerator._calculateLevels at h
    simp only [reduceCtorEq, if_true, if_false, reduceIte, false_and, and_true, true_and] at h
    by_cases hg : min (max (price - atr * slAtrMult)
        (match (lastD candles).lastSL with
         | some v => v - 0.2 * atr
         | none => price - atr * slAtrMult)) (price - 1.0 * atr) ≥ price
    · rw [if_pos hg] at h
      exact absurd h (by simp)
    · rw [if_neg hg] at h
      rw [Option.some_inj] at h
      subst h
      push_neg at hg
      refine ⟨rfl, ?_, by simp⟩
      intro _
      refine ⟨?_, hg, ?_⟩
      · calc min (max (price - atr * slAtrMult) _) (price - 1.0 * atr) ≤ price - 1.0 * atr :=
            min_le_right _ _
          _ = price - atr := by ring_nf
      · show price + |price - _| * tpSlMult = price + (price - _) * tpSlMult
        rw [abs_of_pos (by linarith)]
  | sell =>
    unfold SignalGenerator._calculateLevels at h
    simp only [reduceCtorEq, if_true, if_false, reduceIte, false_and, and_true, true_and] at h
    by_cases hg : max (min (price + atr * slAtrMult)
        (match (lastD candles).lastSH with
         | some v => v + 0.2 * atr
         | none => price + atr * slAtrMult)) (price + 1.0 * atr) ≤ price
    · rw [if_pos hg] at h
      exact absurd h (by simp)
    · rw [if_neg hg] at h
      rw [Option.some_inj] at h
      subst h
      push_neg at hg
      refine ⟨rfl, by simp, ?_⟩
      intro _
      refine ⟨?_, hg, ?_⟩
      · calc price + atr = price + 1.0 * atr := by ring_nf
          _ ≤ max (min (price + atr * slAtrMult) _) (price + 1.0 * atr) := le_max_right _ _
      · show price - |price - _| * tpSlMult = price - (_ - price) * tpSlMult
        rw [abs_of_neg (by linarith), neg_sub]

/-- Helper: inversion of a successful `evaluate` — the returned signal comes
from an in-band ATR, a qualifying chosen direction and a successful level
construction, with its stored fields obtained by `round2`. -/
theorem evaluate_some (m h : List Candle) (s : Signal)
    (he : SignalGenerator.evaluate m h = some s) :
    ∃ atr dir chosen l,
      (lastD m).atr = some atr ∧ minAtr ≤ atr ∧ atr ≤ maxAtr ∧
      chooseDirection (buyScoreOf m h) (sellScoreOf m h) = some (dir, chosen) ∧
      SignalGenerator._calculateLevels dir (lastD m).close atr m = some l ∧
      s.direction = dir ∧ s.entryPrice = round2 l.entry ∧ s.stopLoss = round2 l.sl ∧
      s.takeProfit = round2 l.tp ∧
      s.rrRatio =
        round2 (if |l.entry - l.sl| > 0 then |l.tp - l.entry| / |l.entry - l.sl| else 0) ∧
      s.score = chosen.score ∧ s.requiredScore = chosen.requiredScore ∧
      s.isCounterTrend = chosen.isCounterTrend ∧ s.atr = round2 atr ∧
      s.reasons = chosen.reasons ∧ s.timestamp = (lastD m).time := by
  simp only [SignalGenerator.evaluate] at he
  split at he
  · simp at he
  · split at he
    · simp at he
    · rename_i atr hatr
      split at he
      · simp at he
      · rename_i hband
        push_neg at hband
        split at he
        · simp at he
        · rename_i dir chosen hchoose
          split at he
          · simp at he
          · rename_i l hlev
            split at he
            · rename_i hrisk
              split at he
              · simp at he
              · rw [Option.some_inj] at he
                subst he
                refine ⟨atr, dir, chosen, l, hatr, hband.1, hband.2, ?_,
                  hlev, rfl, rfl, rfl, rfl, ?_, rfl, rfl, rfl, rfl, rfl, rfl⟩
                · unfold buyScoreOf sellScoreOf
                  exact hchoose
                · rw [if_pos hrisk]
            · rw [if_pos (by norm_num [minRrRatio])] at he
              exact absurd he (by simp)

/-- C2: signal validity postcondition — whenever `evaluate` returns a
`Signal`, its stored stop-loss is strictly on the losing side of the stored
entry price for its direction, and the risk-reward ratio computed from the
stored levels is at least the configured minimum `minRrRatio`; a candidate
violating either condition is never returned. -/
theorem c2_signal_validity (m h : List Candle) (s : Signal)
    (he : SignalGenerator.evaluate m h = some s) :
    (s.direction = Dir.buy → s.stopLoss < s.entryPrice) ∧
    (s.direction = Dir.sell → s.entryPrice < s.stopLoss) ∧
    |s.takeProfit - s.entryPrice| / |s.entryPrice - s.stopLoss| ≥ minRrRatio := by
  obtain ⟨atr, dir, chosen, l, hatr, hminA, hmaxA, hchoose, hlev, hdir, hE, hS, hT, hR,
    hscore, hreq, hict, hatrF, hreasons, hts⟩ := evaluate_some m h s he
  obtain ⟨hentry, hbuy, hsell⟩ := calculateLevels_some dir ((lastD m).close) atr m l hlev
  have hminA' : (1/5 : ℚ) ≤ atr := by norm_num [minAtr] at hminA; linarith
  cases dir with
  | buy =>
    obtain ⟨hsl1, hsl2, htp⟩ := hbuy rfl
    norm_num [tpSlMult] at htp
    have e1 := round2_le l.sl
    have e2 := lt_round2 l.sl
    have e3 := round2_le l.entry
    have e4 := lt_round2 l.entry
    have e5 := round2_le l.tp
    have e6 := lt_round2 l.tp
    rw [hentry] at e3 e4
    have hslp : s.stopLoss < s.entryPrice := by
      rw [hS, hE, hentry]
      linarith
    refine ⟨fun _ => hslp, ?_, ?_⟩
    · intro hcon
      rw [hdir] at hcon
      exact absurd hcon (by simp)
    · rw [hT, hE, hS, hentry]
      have hTE : 0 < round2 l.tp - round2 (lastD m).close := by linarith
      have hES : 0 < round2 (lastD m).close - round2 l.sl := by
        rw [hS, hE, hentry] at hslp
        linarith
      rw [abs_of_pos (by linarith), abs_of_pos (by linarith), ge_iff_le,
        le_div_iff₀ (by linarith)]
      norm_num [minRrRatio]
      linarith
  | sell =>
    obtain ⟨hsl1, hsl2, htp⟩ := hsell rfl
    norm_num [tpSlMult] at htp
    have e1 := round2_le l.sl
    have e2 := lt_round2 l.sl
    have e3 := round2_le l.entry
    have e4 := lt_round2 l.entry
    have e5 := round2_le l.tp
    have e6 := lt_round2 l.tp
    rw [hentry] at e3 e4
    have hslp : s.entryPrice < s.stopLoss := by
      rw [hS, hE, hentry]
      linarith
    refine ⟨?_, fun _ => hslp, ?_⟩
    · intro hcon
      rw [hdir] at hcon
      exact absurd hcon (by simp)
    · rw [hT, hE, hS, hentry]
      have hTE : round2 l.tp - round2 (lastD m).close < 0 := by linarith
      have hES : round2 (lastD m).close - round2 l.sl < 0 := by
        rw [hS, hE, hentry] at hslp
        linarith
      rw [abs_of_neg (by linarith), abs_of_neg (by linarith), ge_iff_le,
        le_div_iff₀ (by linarith)]
      norm_num [minRrRatio]
      linarith

/-- Helper: a successful `_calculateLevels` has a positive stop distance and
a take-profit distance equal to `tpSlMult` times the stop distance. -/
theorem levels_ratio (direction : Dir) (price atr : ℚ) (candles : List Candle) (l : Levels)
    (h : SignalGenerator._calculateLevels direction price atr candles = some l) :
    |l.entry - l.sl| > 0 ∧ |l.tp - l.entry| = tpSlMult * |l.entry - l.sl| := by
  obtain ⟨hentry, hbuy, hsell⟩ := calculateLevels_some direction price atr candles l h
  cases direction with
  | buy =>
    obtain ⟨_, hsl, htp⟩ := hbuy rfl
    norm_num [tpSlMult] at htp
    have hd : 0 < price - l.sl := by linarith
    rw [hentry, htp]
    have e1 : price + (price - l.sl) * 2 - price = (price - l.sl) * 2 := by ring
    refine ⟨by rw [abs_of_pos hd]; exact hd, ?_⟩
    rw [e1, abs_of_pos (by linarith), abs_of_pos hd]
    norm_num [tpSlMult]
    ring
  | sell =>
    obtain ⟨_, hsl, htp⟩ := hsell rfl
    norm_num [tpSlMult] at htp
    have hd : price - l.sl < 0 := by linarith
    rw [hentry, htp]
    have e1 : price - (l.sl - price) * 2 - price = (price - l.sl) * 2 := by ring
    refine ⟨by rw [abs_of_neg hd]; linarith, ?_⟩
    rw [e1, abs_of_neg (by linarith), abs_of_neg hd]
    norm_num [tpSlMult]
    ring

/-- C10: exact reward multiple — every successful level construction places
the take-profit at exactly `tpSlMult` times the stop distance; every signal
returned by `evaluate` therefore carries a risk-reward ratio field equal to
`tpSlMult` exactly (2.0 as shipped); and the separate minimum risk-reward
rejection branch is unreachable, so `evaluate` coincides with the variant
from which that branch is removed. -/
theorem c10_exact_reward_multiple :
    (∀ (direction : Dir) (price atr : ℚ) (candles : List Candle) (l : Levels),
        SignalGenerator._calculateLevels direction price atr candles = some l →
        |l.tp - l.entry| = tpSlMult * |l.entry - l.sl|) ∧
    (∀ (m h : List Candle) (s : Signal),
        SignalGenerator.evaluate m h = some s → s.rrRatio = tpSlMult) ∧
    (∀ m h : List Candle, SignalGenerator.evaluate m h = evaluateWithoutRrCheck m h) := by
  have hdiv : ∀ (direction : Dir) (price atr : ℚ) (candles : List Candle) (l : Levels),
      SignalGenerator._calculateLevels direction price atr candles = some l →
      |l.tp - l.entry| / |l.entry - l.sl| = tpSlMult := by
    intro direction price atr candles l h
    obtain ⟨hpos, hmul⟩ := levels_ratio direction price atr candles l h
    rw [hmul, mul_div_assoc, div_self (by linarith), mul_one]
  refine ⟨fun d p a c l h => (levels_ratio d p a c l h).2, ?_, ?_⟩
  · intro m h s he
    obtain ⟨atr, dir, chosen, l, hatr, hminA, hmaxA, hchoose, hlev, hdir, hE, hS, hT, hR,
      hscore, hreq, hict, hatrF, hreasons, hts⟩ := evaluate_some m h s he
    obtain ⟨hpos, hmul⟩ := levels_ratio dir ((lastD m).close) atr m l hlev
    rw [hR, if_pos hpos, hdiv dir ((lastD m).close) atr m l hlev]
    unfold round2 tpSlMult
    have : ((2.0 : ℚ) * 100 + 1 / 2) = 401 / 2 := by norm_num
    rw [this]
    have hfl : (⌊(401 / 2 : ℚ)⌋ : ℤ) = 200 := by
      rw [Int.floor_eq_iff]
      constructor <;> norm_num
    rw [hfl]
    norm_num
  · intro m h
    simp only [SignalGenerator.evaluate, evaluateWithoutRrCheck]
    split
    · rfl
    · split
      · rfl
      · rename_i atr hatr
        split
        · rfl
        · split
          · rfl
          · rename_i dir chosen hchoose
            split
            · rfl
            · rename_i l hlev
              obtain ⟨hpos, hmul⟩ := levels_ratio dir ((lastD m).close) atr m l hlev
              rw [if_pos hpos, hdiv dir ((lastD m).close) atr m l hlev,
                if_neg (by norm_num [tpSlMult, minRrRatio])]

/-- Helper: inversion of the direction selection — a chosen direction always
meets its own required score, and the returned score object is that
direction's. -/
theorem chooseDirection_some (br sr : ScoreResult) (dir : Dir) (c : ScoreResult)
    (h : chooseDirection br sr = some (dir, c)) :
    (dir = Dir.buy → br.score ≥ br.requiredScore ∧ c = br) ∧
    (dir = Dir.sell → sr.score ≥ sr.requiredScore ∧ c = sr) := by
  simp only [chooseDirection] at h
  split at h
  · rename_i hcond
    simp only [Option.some_inj, Prod.mk.injEq] at h
    obtain ⟨hd, hc⟩ := h
    subst hd
    subst hc
    exact ⟨fun _ => ⟨hcond.1, rfl⟩, fun hcon => absurd hcon (by simp)⟩
  · split at h
    · rename_i hsellOk
      simp only [Option.some_inj, Prod.mk.injEq] at h
      obtain ⟨hd, hc⟩ := h
      subst hd
      subst hc
      exact ⟨fun hcon => absurd hcon (by simp), fun _ => ⟨hsellOk, rfl⟩⟩
    · exact absurd h (by simp)

/-- C5: counter-trend hard gate — if a candidate direction opposes the
higher-timeframe trend and the RSI divergence does not confirm it, `_score`
forces the sentinel (score 0 against required score 99), so the candidate
can never meet its threshold; consequently `evaluate` never returns a signal
in a counter-trend direction without confirming divergence. -/
theorem c5_counter_trend_gate :
    (∀ (direction : Dir) (bar h1Bar : Candle) (candles : List Candle) (rsiDiv : DivKind),
        isCounterTrendB (decide (direction = Dir.buy)) h1Bar.trendDir = true →
        divConfirmedB (decide (direction = Dir.buy)) rsiDiv = false →
        (SignalGenerator._score direction bar h1Bar candles rsiDiv).score <
          (SignalGenerator._score direction bar h1Bar candles rsiDiv).requiredScore) ∧
    (∀ (m h : List Candle) (s : Signal),
        SignalGenerator.evaluate m h = some s →
        ¬(isCounterTrendB (decide (s.direction = Dir.buy)) (lastD h).trendDir = true ∧
          divConfirmedB (decide (s.direction = Dir.buy)) (rsiDivergence m 20) = false)) := by
  have gate : ∀ (direction : Dir) (bar h1Bar : Candle) (candles : List Candle)
      (rsiDiv : DivKind),
      isCounterTrendB (decide (direction = Dir.buy)) h1Bar.trendDir = true →
      divConfirmedB (decide (direction = Dir.buy)) rsiDiv = false →
      (SignalGenerator._score direction bar h1Bar candles rsiDiv).score <
        (SignalGenerator._score direction bar h1Bar candles rsiDiv).requiredScore := by
    intro direction bar h1Bar candles rsiDiv h1 h2
    simp only [SignalGenerator._score, h1, h2, Bool.not_false, Bool.and_true, if_true]
    norm_num
  refine ⟨gate, ?_⟩
  intro m h s he ⟨hct, hdc⟩
  obtain ⟨atr, dir, chosen, l, hatr, hminA, hmaxA, hchoose, hlev, hdir, hE, hS, hT, hR,
    hscore, hreq, hict, hatrF, hreasons, hts⟩ := evaluate_some m h s he
  obtain ⟨hb, hs2⟩ := chooseDirection_some _ _ dir chosen hchoose
  rw [hdir] at hct hdc
  cases dir with
  | buy =>
    have hok := (hb rfl).1
    have hlt := gate Dir.buy (lastD m) (lastD h) m (rsiDivergence m 20) hct hdc
    unfold buyScoreOf at hok
    omega
  | sell =>
    have hok := (hs2 rfl).1
    have hlt := gate Dir.sell (lastD m) (lastD h) m (rsiDivergence m 20) hct hdc
    unfold sellScoreOf at hok
    omega


/-- Helper: when the counter-trend gate fires, `_score` returns the sentinel
pair score 0 / required 99. -/
theorem score_gated (direction : Dir) (bar h1Bar : Candle) (candles : List Candle)
    (rsiDiv : DivKind)
    (hg : (isCounterTrendB (decide (direction = Dir.buy)) h1Bar.trendDir &&
           !divConfirmedB (decide (direction = Dir.buy)) rsiDiv) = true) :
    (SignalGenerator._score direction bar h1Bar candles rsiDiv).score = 0 ∧
    (SignalGenerator._score direction bar h1Bar candles rsiDiv).requiredScore = 99 := by
  constructor <;> simp [SignalGenerator._score, hg]

/-- Helper: when the counter-trend gate does not fire, the score of `_score`
is the sum of the five check bits and the required score is the base
minimum, plus one for a counter-trend candidate. -/
theorem score_spec (direction : Dir) (bar h1Bar : Candle) (candles : List Candle)
    (rsiDiv : DivKind)
    (hng : (isCounterTrendB (decide (direction = Dir.buy)) h1Bar.trendDir &&
            !divConfirmedB (decide (direction = Dir.buy)) rsiDiv) = false) :
    (SignalGenerator._score direction bar h1Bar candles rsiDiv).score =
      (check1 (trendAlignedB (decide (direction = Dir.buy)) h1Bar.trendDir)
        (divConfirmedB (decide (direction = Dir.buy)) rsiDiv)).toNat +
      (check2 (decide (direction = Dir.buy)) bar.rsi
        (trendAlignedB (decide (direction = Dir.buy)) h1Bar.trendDir)
        (divConfirmedB (decide (direction = Dir.buy)) rsiDiv)
        (isCounterTrendB (decide (direction = Dir.buy)) h1Bar.trendDir)).toNat +
      (check3 (decide (direction = Dir.buy)) bar (atNeg2 candles)).toNat +
      (check4 (decide (direction = Dir.buy)) bar (atNeg2 candles)).toNat +
      (check5 (decide (direction = Dir.buy)) bar).toNat ∧
    (SignalGenerator._score direction bar h1Bar candles rsiDiv).requiredScore =
      (if isCounterTrendB (decide (direction = Dir.buy)) h1Bar.trendDir then
        minSignalScore + 1 else minSignalScore) := by
  constructor <;> simp [SignalGenerator._score, hng]

/-- Helper: two booleans that are not both true contribute at most one to a
score sum. -/
theorem toNat_add_le_one (a b : Bool) (h : ¬(a = true ∧ b = true)) :
    a.toNat + b.toNat ≤ 1 := by
  cases a <;> cases b <;> simp_all

/-- Helper: the buy and sell instances of the RSI-zone check cannot both
fire when the buy side is counter-trend (only the oversold branch is open to
it) and the sell side is trend-aligned without divergence. -/
theorem check2_excl (rsi : Option ℚ) :
    ¬(check2 true rsi false true true = true ∧ check2 false rsi true false false = true) := by
  intro ⟨h1, h2⟩
  cases rsi with
  | none => simp [check2] at h1
  | some r =>
    simp [check2] at h1 h2
    norm_num [rsiOversold, rsiOverbought] at h1 h2
    rcases h2 with h2 | h2 <;> linarith

/-- Helper: a fired buy MACD check pins a positive histogram on the signal
bar, a fired sell MACD check a negative one, so they exclude each other. -/
theorem check3_hist (bar : Candle) (p : Option Candle) :
    (check3 true bar p = true → ∃ hv, bar.macdHist = some hv ∧ 0 < hv) ∧
    (check3 false bar p = true → ∃ hv, bar.macdHist = some hv ∧ hv < 0) := by
  constructor <;> intro hc <;> unfold check3 at hc
  all_goals
    rcases p with _ | q
    · simp at hc
    · dsimp only at hc
      rcases hml : bar.macdLine with _ | m
      · rw [hml] at hc; simp at hc
      · rcases hms : bar.macdSignal with _ | sv
        · rw [hml, hms] at hc; simp at hc
        · rcases hmh : bar.macdHist with _ | hv
          · rw [hml, hms, hmh] at hc; simp at hc
          · rcases hpl : q.macdLine with _ | mp
            · rw [hml, hms, hmh, hpl] at hc; simp at hc
            · rcases hps : q.macdSignal with _ | sp
              · rw [hml, hms, hmh, hpl, hps] at hc; simp at hc
              · rw [hml, hms, hmh, hpl, hps] at hc
                simp at hc
                exact ⟨hv, rfl, hc.2⟩

/-- Helper: the buy and sell stochastic checks cross in opposite directions,
so they cannot both fire on the same bar pair. -/
theorem check4_excl (bar : Candle) (p : Option Candle) :
    ¬(check4 true bar p = true ∧ check4 false bar p = true) := by
  intro ⟨h1, h2⟩
  unfold check4 at h1 h2
  rcases p with _ | q
  · simp at h1
  · dsimp only at h1 h2
    rcases hk : bar.stochK with _ | k
    · rw [hk] at h1; simp at h1
    · rcases hd : bar.stochD with _ | d
      · rw [hk, hd] at h1; simp at h1
      · rcases hkp : q.stochK with _ | kp
        · rw [hk, hd, hkp] at h1; simp at h1
        · rcases hdp : q.stochD with _ | dp
          · rw [hk, hd, hkp, hdp] at h1; simp at h1
          · rw [hk, hd, hkp, hdp] at h1 h2
            simp at h1 h2
            linarith [h1.1.1.2, h2.1.1.1.2]

/-- Helper: when both candidates qualify, the selection takes buy exactly
when buy's score is at least sell's. -/
theorem chooseDirection_both (br sr : ScoreResult)
    (hb : br.score ≥ br.requiredScore) (hs : sr.score ≥ sr.requiredScore) :
    chooseDirection br sr =
      some (if br.score ≥ sr.score then (Dir.buy, br) else (Dir.sell, sr)) := by
  simp only [chooseDirection]
  by_cases hge : br.score ≥ sr.score
  · rw [if_pos ⟨hb, Or.inr hge⟩, if_pos hge]
  · rw [if_neg ?_, if_neg hge, if_pos hs]
    intro ⟨_, hor⟩
    rcases hor with hns | hge2
    · exact hns hs
    · exact hge hge2

/-- C8 (amended): when both candidates qualify, the strictly higher score
wins; an exact tie is resolved deterministically in favor of the buy
direction; with a bullish higher-timeframe trend this is the trend-aligned
direction, and with a bearish trend a qualifying tie cannot occur at all (a
counter-trend buy needs one more point than the trend-aligned sell, and the
five checks cannot supply matching scores of four) — so a tie is never
resolved against a trend-aligned direction. -/
theorem c8_tie_break_amended (m h : List Candle) (s : Signal)
    (he : SignalGenerator.evaluate m h = some s)
    (hbOk : (buyScoreOf m h).score ≥ (buyScoreOf m h).requiredScore)
    (hsOk : (sellScoreOf m h).score ≥ (sellScoreOf m h).requiredScore) :
    ((buyScoreOf m h).score > (sellScoreOf m h).score → s.direction = Dir.buy) ∧
    ((sellScoreOf m h).score > (buyScoreOf m h).score → s.direction = Dir.sell) ∧
    ((buyScoreOf m h).score = (sellScoreOf m h).score → s.direction = Dir.buy) ∧
    ((buyScoreOf m h).score = (sellScoreOf m h).score → (lastD h).trendDir ≠ -1) := by
  obtain ⟨atr, dir, chosen, l, hatr, hminA, hmaxA, hchoose, hlev, hdir, hE, hS, hT, hR,
    hscore, hreq, hict, hatrF, hreasons, hts⟩ := evaluate_some m h s he
  rw [chooseDirection_both _ _ hbOk hsOk, Option.some_inj] at hchoose
  refine ⟨?_, ?_, ?_, ?_⟩
  · intro hgt
    rw [if_pos (le_of_lt hgt)] at hchoose
    simp only [Prod.mk.injEq] at hchoose
    exact hdir.trans hchoose.1.symm
  · intro hgt
    rw [if_neg (not_le.mpr hgt)] at hchoose
    simp only [Prod.mk.injEq] at hchoose
    exact hdir.trans hchoose.1.symm
  · intro htie
    rw [if_pos (le_of_eq htie.symm)] at hchoose
    simp only [Prod.mk.injEq] at hchoose
    exact hdir.trans hchoose.1.symm
  · intro htie htrend
    have hctb : isCounterTrendB (decide (Dir.buy = Dir.buy)) (lastD h).trendDir = true := by
      rw [htrend]
      simp [isCounterTrendB, trendAlignedB]
    by_cases hdb : divConfirmedB (decide (Dir.buy = Dir.buy)) (rsiDivergence m 20) = true
    · have hbull : rsiDivergence m 20 = DivKind.bullish := by
        simpa [divConfirmedB] using hdb
      have hds : divConfirmedB (decide (Dir.sell = Dir.buy)) (rsiDivergence m 20) = false := by
        rw [hbull]
        simp [divConfirmedB]
      have htas : trendAlignedB (decide (Dir.sell = Dir.buy)) (lastD h).trendDir = true := by
        rw [htrend]
        simp [trendAlignedB]
      have hcs : isCounterTrendB (decide (Dir.sell = Dir.buy)) (lastD h).trendDir = false := by
        rw [htrend]
        simp [isCounterTrendB, trendAlignedB]
      have htab : trendAlignedB (decide (Dir.buy = Dir.buy)) (lastD h).trendDir = false := by
        rw [htrend]
        simp [trendAlignedB]
      have hngb : (isCounterTrendB (decide (Dir.buy = Dir.buy)) (lastD h).trendDir &&
          !divConfirmedB (decide (Dir.buy = Dir.buy)) (rsiDivergence m 20)) = false := by
        rw [hdb]
        simp
      have hngs : (isCounterTrendB (decide (Dir.sell = Dir.buy)) (lastD h).trendDir &&
          !divConfirmedB (decide (Dir.sell = Dir.buy)) (rsiDivergence m 20)) = false := by
        rw [hcs]
        simp
      obtain ⟨hbs, hbr⟩ := score_spec Dir.buy (lastD m) (lastD h) m (rsiDivergence m 20) hngb
      obtain ⟨hss, hsr⟩ := score_spec Dir.sell (lastD m) (lastD h) m (rsiDivergence m 20) hngs
      rw [hctb, if_pos rfl] at hbr
      rw [hcs] at hsr
      rw [if_neg (by simp)] at hsr
      have hdecb : decide (Dir.buy = Dir.buy) = true := by simp
      have hdecs : decide (Dir.sell = Dir.buy) = false := by simp
      rw [htab, hdb, hctb] at hbs
      rw [hdecb] at hbs
      rw [htas, hds, hcs] at hss
      rw [hdecs] at hss
      have hex2 := check2_excl (lastD m).rsi
      have hex3 : ¬(check3 true (lastD m) (atNeg2 m) = true ∧
          check3 false (lastD m) (atNeg2 m) = true) := by
        intro ⟨ha, hb2⟩
        obtain ⟨v1, he1, hp1⟩ := (check3_hist (lastD m) (atNeg2 m)).1 ha
        obtain ⟨v2, he2, hp2⟩ := (check3_hist (lastD m) (atNeg2 m)).2 hb2
        rw [he1, Option.some_inj] at he2
        subst he2
        linarith
      have hex4 := check4_excl (lastD m) (atNeg2 m)
      have h2 := toNat_add_le_one _ _ hex2
      have h3 := toNat_add_le_one _ _ hex3
      have h4 := toNat_add_le_one _ _ hex4
      have hb1 : (check1 false true).toNat ≤ 1 := by simp [check1]
      have hs1 : (check1 true false).toNat ≤ 1 := by simp [check1]
      have hb5 : (check5 true (lastD m)).toNat ≤ 1 := by cases check5 true (lastD m) <;> simp
      have hs5 : (check5 false (lastD m)).toNat ≤ 1 := by
        cases check5 false (lastD m) <;> simp
      unfold buyScoreOf at hbOk htie
      unfold sellScoreOf at hsOk htie
      rw [hbs, hbr] at hbOk
      rw [hss, hsr] at hsOk
      rw [hbs, hss] at htie
      norm_num [minSignalScore] at hbOk hsOk
      omega
    · have hdbf : divConfirmedB (decide (Dir.buy = Dir.buy)) (rsiDivergence m 20) = false := by
        simpa using hdb
      have hg : (isCounterTrendB (decide (Dir.buy = Dir.buy)) (lastD h).trendDir &&
          !divConfirmedB (decide (Dir.buy = Dir.buy)) (rsiDivergence m 20)) = true := by
        rw [hctb, hdbf]
        simp
      obtain ⟨h0, h99⟩ := score_gated Dir.buy (lastD m) (lastD h) m (rsiDivergence m 20) hg
      unfold buyScoreOf at hbOk
      rw [h0, h99] at hbOk
      omega

/-- C1 (refuting the no-lookahead claim on the code): the slices the
backtest engine actually passes differ from the truncated-input slices the
property demands.  On `c1Bars`, bar 6's forward-filled swing level `lastSH`
is 110 in the engine's slice — the swing at bar 5 was confirmed using bars
7..10, which lie in bar 6's future — but null when the raw series is
truncated after bar 6 and then enriched.  On `c1M5`, the 15-minute trend
slice the engine passes at bar time 00:05 contains a bucket whose close (3)
is the close of the 00:10 bar, which lies in the future of 00:05; resampling
the truncated series gives close 2. -/
theorem c1_backtest_lookahead :
    ((lastD (engineM5Slice c1Bars 6)).lastSH = some 110 ∧
     (lastD (truncatedM5Slice c1Bars 6)).lastSH = none ∧
     engineM5Slice c1Bars 6 ≠ truncatedM5Slice c1Bars 6) ∧
    ((engineM15Slice c1M5 300000).map (fun b => b.close) = [3] ∧
     (truncatedM15Slice c1M5 300000).map (fun b => b.close) = [2] ∧
     engineM15Slice c1M5 300000 ≠ truncatedM15Slice c1M5 300000) := by
  have h1 : (lastD (engineM5Slice c1Bars 6)).lastSH = some 110 := by
    norm_num [engineM5Slice, addSwingPoints, swingMarkAux, swingMarkAt, forwardFillSwings,
      c1Bars, c1Bar, lastD, swingWindow, listMax?, listMin?]
  have h2 : (lastD (truncatedM5Slice c1Bars 6)).lastSH = none := by
    norm_num [truncatedM5Slice, addSwingPoints, swingMarkAux, swingMarkAt, forwardFillSwings,
      c1Bars, c1Bar, lastD, swingWindow, listMax?, listMin?]
  have h3 : (engineM15Slice c1M5 300000).map (fun b => b.close) = [3] := by
    norm_num [engineM15Slice, resampleToM15, bucketKeysOf, bucketKey, c1M5, c1Bar2, lastD,
      listMax?, listMin?, defaultCandle, List.mergeSort]
  have h4 : (truncatedM15Slice c1M5 300000).map (fun b => b.close) = [2] := by
    norm_num [truncatedM15Slice, resampleToM15, bucketKeysOf, bucketKey, c1M5, c1Bar2, lastD,
      listMax?, listMin?, defaultCandle, List.mergeSort]
  refine ⟨⟨h1, h2, fun heq => by rw [heq] at h1; simp [h2] at h1⟩,
          ⟨h3, h4, fun heq => by rw [heq] at h3; simp [h4] at h3⟩⟩

/-- Helper: constructor disequalities packaged for `norm_num`. -/
theorem dir_sell_ne_buy : (Dir.sell = Dir.buy) = False := by simp

/-- Helper: constructor disequality packaged for `norm_num`. -/
theorem dir_buy_ne_sell : (Dir.buy = Dir.sell) = False := by simp

/-- Helper: constructor disequality packaged for `norm_num`. -/
theorem noDiv_ne_bullish : (DivKind.noDiv = DivKind.bullish) = False := by simp

/-- Helper: constructor disequality packaged for `norm_num`. -/
theorem noDiv_ne_bearish : (DivKind.noDiv = DivKind.bearish) = False := by simp

/-- Helper: constructor disequality packaged for `norm_num`. -/
theorem bullish_ne_bearish : (DivKind.bullish = DivKind.bearish) = False := by simp

/-- Helper: constructor disequality packaged for `norm_num`. -/
theorem bullish_ne_noDiv : (DivKind.bullish = DivKind.noDiv) = False := by simp

/-- Helper: a positive literal absolute value, packaged for `norm_num`. -/
theorem abs_three_halves : |(3 : ℚ) / 2| = 3 / 2 := by
  rw [abs_of_pos]
  norm_num

/-- Helper: scenario A window length. -/
theorem mA_length : mA.length = 100 := by simp [mA]

/-- Helper: scenario A trend window length. -/
theorem hA_length : hA.length = 30 := by simp [hA]

/-- Helper: the last bar of scenario A's signal window. -/
theorem lastD_mA : lastD mA = sigBarA := by simp [lastD, mA]

/-- Helper: the last bar of scenario A's trend window. -/
theorem lastD_hA : lastD hA = h1BarA := by simp [lastD, hA, List.replicate]

/-- Helper: scenario A shows no RSI divergence (all closes are equal). -/
theorem rsiDiv_mA : rsiDivergence mA 20 = DivKind.noDiv := by
  norm_num [rsiDivergence, mA, fillerA, sigBarA, listMin?, listMax?, ltMinInf, gtMaxInf,
    List.replicate]

/-- Helper: the previous bar of scenario A's signal window. -/
theorem atNeg2_mA : atNeg2 mA = some fillerA := by
  norm_num [atNeg2, mA, List.replicate]

/-- Helper: scenario A's buy candidate scores three of five, trend-aligned. -/
theorem scoreA_buy : SignalGenerator._score Dir.buy sigBarA h1BarA mA DivKind.noDiv =
    { score := 3, reasons := ["M15 trend bullish", "RSI buy zone", "Price at BB lower"],
      requiredScore := 3, isCounterTrend := false } := by
  norm_num [SignalGenerator._score, trendAlignedB, isCounterTrendB, divConfirmedB, check1,
    check2, check3, check4, check5, nearLevelB, atNeg2_mA, sigBarA, h1BarA, fillerA,
    rsiOversold, minSignalScore]

/-- Helper: scenario A's sell candidate is hard-rejected (counter-trend, no
divergence). -/
theorem scoreA_sell : SignalGenerator._score Dir.sell sigBarA h1BarA mA DivKind.noDiv =
    { score := 0, reasons := ["counter-trend without divergence"], requiredScore := 99,
      isCounterTrend := true } := by
  simp only [SignalGenerator._score]
  norm_num [isCounterTrendB, trendAlignedB, divConfirmedB, h1BarA, defaultCandle,
    dir_sell_ne_buy, noDiv_ne_bullish, noDiv_ne_bearish]

/-- Helper: scenario A's level construction. -/
theorem levelsA : SignalGenerator._calculateLevels Dir.buy 90 1 mA =
    some { entry := 90, sl := 88.5, tp := 93 } := by
  norm_num [SignalGenerator._calculateLevels, lastD_mA, sigBarA, slAtrMult, tpSlMult,
    dir_buy_ne_sell, abs_three_halves]

/-- Helper: scenario A evaluates to the trend-aligned buy signal `sigA`. -/
theorem evaluateA : SignalGenerator.evaluate mA hA = some sigA := by
  simp only [SignalGenerator.evaluate, mA_length, hA_length, lastD_mA, lastD_hA, rsiDiv_mA,
    scoreA_buy, scoreA_sell]
  norm_num [sigBarA, h1BarA, chooseDirection, levelsA, sigA, round2, minAtr, maxAtr,
    minRrRatio, abs_three_halves]

/-- Helper: scenario B window length. -/
theorem mB_length : mB.length = 100 := by simp [mB, mBtail]

/-- Helper: scenario B trend window length. -/
theorem hB_length : hB.length = 30 := by simp [hB]

/-- Helper: the last bar of scenario B's signal window. -/
theorem lastD_mB : lastD mB = sigBarB := by simp [lastD, mB, mBtail]

/-- Helper: the last bar of scenario B's trend window. -/
theorem lastD_hB : lastD hB = defaultCandle := by simp [lastD, hB, List.replicate]

/-- Helper: scenario B shows a bullish RSI divergence (a lower close low
with a higher RSI low between the two half-windows). -/
theorem rsiDiv_mB : rsiDivergence mB 20 = DivKind.bullish := by
  have hw : mB.drop 80 = mBtail := by
    simp only [mB]
    exact List.drop_left' (by simp)
  have hfirst : mBtail.take 10 = List.replicate 10 fB50 := by
    simp only [mBtail]
    exact List.take_left' (by simp)
  have hsecond : mBtail.drop 10 = List.replicate 8 fB60 ++ [prevB, sigBarB] := by
    simp only [mBtail]
    exact List.drop_left' (by simp)
  simp only [rsiDivergence, mB_length]
  norm_num [hw, hfirst, hsecond, fB50, fB60, prevB, fillerB, sigBarB, listMin?, listMax?,
    ltMinInf, gtMaxInf, List.replicate, List.filterMap_cons]

/-- Helper: the previous bar of scenario B's signal window. -/
theorem atNeg2_mB : atNeg2 mB = some prevB := by
  norm_num [atNeg2, mB, mBtail, List.replicate]

/-- Helper: scenario B's buy candidate scores three of five (divergence,
RSI divergence point, band touch) under the neutral trend. -/
theorem scoreB_buy : SignalGenerator._score Dir.buy sigBarB defaultCandle mB DivKind.bullish =
    { score := 3,
      reasons := ["RSI divergence counter-trend confirmed", "RSI buy zone",
                  "Price at BB lower"],
      requiredScore := 3, isCounterTrend := false } := by
  simp only [SignalGenerator._score]
  norm_num [trendAlignedB, isCounterTrendB, divConfirmedB, check1, check2, check3, check4,
    check5, nearLevelB, atNeg2_mB, sigBarB, prevB, fB60, fillerB, defaultCandle,
    rsiOversold, rsiOverbought, minSignalScore, dir_buy_ne_sell, bullish_ne_bearish]

/-- Helper: scenario B's sell candidate also scores three of five
(overbought RSI, bearish MACD crossover, band touch) under the neutral
trend. -/
theorem scoreB_sell : SignalGenerator._score Dir.sell sigBarB defaultCandle mB DivKind.bullish =
    { score := 3,
      reasons := ["RSI sell zone", "MACD bearish crossover", "Price at BB upper"],
      requiredScore := 3, isCounterTrend := false } := by
  simp only [SignalGenerator._score]
  norm_num [trendAlignedB, isCounterTrendB, divConfirmedB, check1, check2, check3, check4,
    check5, nearLevelB, atNeg2_mB, sigBarB, prevB, fB60, fillerB, defaultCandle,
    rsiOversold, rsiOverbought, minSignalScore, dir_sell_ne_buy, bullish_ne_bearish]

/-- Helper: scenario B's level construction for the chosen buy. -/
theorem levelsB : SignalGenerator._calculateLevels Dir.buy 95 1 mB =
    some { entry := 95, sl := 93.5, tp := 98 } := by
  norm_num [SignalGenerator._calculateLevels, lastD_mB, sigBarB, slAtrMult, tpSlMult,
    dir_buy_ne_sell, abs_three_halves]

set_option maxRecDepth 8000 in
/-- Helper: scenario B evaluates to the buy side of the three-three tie. -/
theorem evaluateB : SignalGenerator.evaluate mB hB = some sigB := by
  simp only [SignalGenerator.evaluate, mB_length, hB_length, lastD_mB, lastD_hB, rsiDiv_mB,
    scoreB_buy, scoreB_sell]
  norm_num [sigBarB, defaultCandle, chooseDirection, levelsB, sigB, round2, minAtr,
    maxAtr, minRrRatio, abs_three_halves]

/-- Witness for C2: scenario A's returned signal has its stop strictly below
its entry and a stored-level risk-reward ratio meeting the minimum. -/
theorem c2_signal_validity_witness :
    SignalGenerator.evaluate mA hA = some sigA ∧ sigA.stopLoss < sigA.entryPrice ∧
    |sigA.takeProfit - sigA.entryPrice| / |sigA.entryPrice - sigA.stopLoss| ≥ minRrRatio :=
  ⟨evaluateA, (c2_signal_validity mA hA sigA evaluateA).1 rfl,
    (c2_signal_validity mA hA sigA evaluateA).2.2⟩

/-- Witness for C5: with a bullish higher-timeframe bar and no divergence,
the sell candidate's sentinel score can never reach its required score. -/
theorem c5_counter_trend_gate_witness :
    (SignalGenerator._score Dir.sell sigBarA h1BarA mA DivKind.noDiv).score <
      (SignalGenerator._score Dir.sell sigBarA h1BarA mA DivKind.noDiv).requiredScore :=
  c5_counter_trend_gate.1 Dir.sell sigBarA h1BarA mA DivKind.noDiv
    (by simp [isCounterTrendB, trendAlignedB, h1BarA, defaultCandle])
    (by simp [divConfirmedB])

/-- Counterexample for C8 as stated: in scenario B both candidates qualify
with the same score 3 under a NEUTRAL higher-timeframe trend, and the tie is
resolved in favor of buy even though neither direction (in particular not
the chosen one) matches the trend classification — so "ties are resolved in
favor of the direction matching the higher-timeframe trend classification"
fails on the code. -/
theorem c8_counterexample :
    (buyScoreOf mB hB).score = 3 ∧ (buyScoreOf mB hB).requiredScore = 3 ∧
    (sellScoreOf mB hB).score = 3 ∧ (sellScoreOf mB hB).requiredScore = 3 ∧
    (lastD hB).trendDir = 0 ∧
    SignalGenerator.evaluate mB hB = some sigB ∧ sigB.direction = Dir.buy ∧
    trendAlignedB (decide (Dir.buy = Dir.buy)) (lastD hB).trendDir = false ∧
    trendAlignedB (decide (Dir.sell = Dir.buy)) (lastD hB).trendDir = false := by
  refine ⟨?_, ?_, ?_, ?_, ?_, evaluateB, rfl, ?_, ?_⟩
  · simp [buyScoreOf, lastD_mB, lastD_hB, rsiDiv_mB, scoreB_buy]
  · simp [buyScoreOf, lastD_mB, lastD_hB, rsiDiv_mB, scoreB_buy]
  · simp [sellScoreOf, lastD_mB, lastD_hB, rsiDiv_mB, scoreB_sell]
  · simp [sellScoreOf, lastD_mB, lastD_hB, rsiDiv_mB, scoreB_sell]
  · simp [lastD_hB, defaultCandle]
  · simp [trendAlignedB, lastD_hB, defaultCandle]
  · simp [trendAlignedB, lastD_hB, defaultCandle]

/-- Witness for the amended C8: scenario B discharges the theorem's
hypotheses concretely (both sides qualify at score three) and the tie goes
to buy. -/
theorem c8_tie_break_amended_witness :
    SignalGenerator.evaluate mB hB = some sigB ∧ sigB.direction = Dir.buy :=
  ⟨evaluateB, by
    have hb : (buyScoreOf mB hB).score ≥ (buyScoreOf mB hB).requiredScore := by
      simp [buyScoreOf, lastD_mB, lastD_hB, rsiDiv_mB, scoreB_buy]
    have hs : (sellScoreOf mB hB).score ≥ (sellScoreOf mB hB).requiredScore := by
      simp [sellScoreOf, lastD_mB, lastD_hB, rsiDiv_mB, scoreB_sell]
    have htie : (buyScoreOf mB hB).score = (sellScoreOf mB hB).score := by
      simp [buyScoreOf, sellScoreOf, lastD_mB, lastD_hB, rsiDiv_mB, scoreB_buy, scoreB_sell]
    exact (c8_tie_break_amended mB hB sigB evaluateB hb hs).2.2.1 htie⟩

/-- Witness for C10: scenario A's signal carries a risk-reward field equal
to `tpSlMult`, and its levels place the target at exactly twice the stop
distance. -/
theorem c10_exact_reward_multiple_witness :
    SignalGenerator.evaluate mA hA = some sigA ∧ sigA.rrRatio = tpSlMult ∧
    |(93 : ℚ) - 90| = tpSlMult * |(90 : ℚ) - 88.5| :=
  ⟨evaluateA, c10_exact_reward_multiple.2.1 mA hA sigA evaluateA,
    by simpa using c10_exact_reward_multiple.1 Dir.buy 90 1 mA _ levelsA⟩
